import Mathlib

/-!
Verification of the stream-transport negotiation and fallback engine of the
aviant mobile NVR client.  The definitions below are a shallow embedding of
the TypeScript sources:

* `src/react_native_space/src/screens/CameraLiveScreen_WEBRTC.tsx`
  (the unified live screen: transport fallback WebRTC → MSE → HLS plus the
  live/recorded playback-mode controller),
* `src/react_native_space/src/screens/CameraLiveScreen_MJPEG.tsx`
  (the native-player screen with its auto-retry/fallback effect),
* `src/react_native_space/src/services/webrtcService.ts`,
* `src/react_native_space/src/services/mseStreamService.ts`,
* `src/react_native_space/src/services/frigateWebSocket.ts`,
* `src/unnamed/part_004` (frigateRecordingsApi.getRecordingUrl).

React `useState` setters are modelled as functional record updates; timers
and socket callbacks are modelled as events processed by explicit step
functions.  Times are naturals (JS epoch milliseconds / seconds); where the
source can produce a negative difference the embedding computes in `Int`.
-/

/-- Process-wide configuration read by the screens: camera identifier,
REST base url, auth token (`frigateApi.getBaseUrl` / `getJWTToken`). -/
structure Cfg where
  cameraName : String
  baseUrl : String
  token : String
  deriving DecidableEq, Repr

/-- Embeds `type StreamType = 'webrtc' | 'mse' | 'hls'`
(CameraLiveScreen_WEBRTC.tsx line 48). -/
inductive StreamType
  | webrtc
  | mse
  | hls
  deriving DecidableEq, Repr

/-- Embeds `type PlaybackMode = 'live' | 'timeline'`
(CameraLiveScreen_WEBRTC.tsx line 47). -/
inductive PlaybackMode
  | live
  | timeline
  deriving DecidableEq, Repr

/-- The failure taxonomy of the specification (§3 `FailureCategory`). -/
inductive FailureCategory
  | codecUnsupported
  | signalingFailed
  | socketTimeout
  | decodeError
  | unknown
  deriving DecidableEq, Repr

/-- The `useState` cells of `CameraLiveScreenWebRTC`
(CameraLiveScreen_WEBRTC.tsx lines 70-95), together with two booleans
tracking whether the `webrtcConnection` ref holds a connected driver and
whether the `mseStreamService` ref holds a running service.
`selectedTime = none` encodes the `'LIVE'` sentinel.  The cosmetic
`mseCodec` cell and the timeline-scroll cells, which no claim touches, are
omitted. -/
structure ScreenState where
  streamType : StreamType
  loading : Bool
  error : Option String
  connectionState : String
  remoteStream : Bool
  hlsUrl : Option String
  mseUrl : Option String
  playbackMode : PlaybackMode
  selectedTime : Option Nat
  recordingUrl : Option String
  recordingReady : Bool
  buffering : Bool
  recordingEndTime : Nat
  webrtcLive : Bool
  mseLive : Bool
  deriving DecidableEq, Repr

/-- Initial state of the screen on mount (the `useState` initialisers,
CameraLiveScreen_WEBRTC.tsx lines 70-95). -/
def initialScreenState : ScreenState :=
  { streamType := StreamType.webrtc
    loading := true
    error := none
    connectionState := "new"
    remoteStream := false
    hlsUrl := none
    mseUrl := none
    playbackMode := PlaybackMode.live
    selectedTime := none
    recordingUrl := none
    recordingReady := false
    buffering := false
    recordingEndTime := 0
    webrtcLive := false
    mseLive := false }

/-- Holds (`true`) when the needle matches the head of the haystack
(character-by-character). -/
def charsMatch : List Char → List Char → Bool
  | [], _ => true
  | _ :: _, [] => false
  | a :: as, b :: bs => a == b && charsMatch as bs

/-- Holds (`true`) when the needle occurs as a contiguous run somewhere in the
haystack.  Embeds JavaScript `String.prototype.includes`. -/
def containsSub (needle : List Char) : List Char → Bool
  | [] => charsMatch needle []
  | c :: rest => charsMatch needle (c :: rest) || containsSub needle rest

/-- Embeds `hay.includes(needle)` on Lean strings. -/
def strIncludes (hay needle : String) : Bool :=
  containsSub needle.data hay.data

/-- The codec-mismatch test of `WebRTCConnection.handleWebSocketMessage`
(webrtcService.ts line 142):
`errorMsg.includes('codecs not matched') || errorMsg.includes('H265')`. -/
def isCodecMismatchMsg (msg : String) : Bool :=
  strIncludes msg "codecs not matched" || strIncludes msg "H265"

/-- Failure category assigned to a go2rtc `error` signaling message by the
peer driver: codec-negotiation vocabulary classifies as
`CodecUnsupported`, anything else stays uncategorised
(webrtcService.ts lines 138-148 dispatch to `onCodecError` vs `onError`). -/
def classifyServerError (msg : String) : FailureCategory :=
  if isCodecMismatchMsg msg then FailureCategory.codecUnsupported
  else FailureCategory.unknown

/-- The local relay url `http://127.0.0.1:${port}/stream.mp4` announced by
`MSEStreamService.start` (mseStreamService.ts line 64). -/
def mseLocalUrl (port : Nat) : String :=
  "http://127.0.0.1:" ++ toString port ++ "/stream.mp4"

/-- The HLS url built by `fallbackToHLS`
(CameraLiveScreen_WEBRTC.tsx lines 202-204); `encodeURIComponent` is the
identity on the plain camera names this model quantifies over. -/
def hlsStreamUrl (c : Cfg) : String :=
  c.baseUrl ++ "/api/go2rtc/api/stream.m3u8?src=" ++ c.cameraName
    ++ "&token=" ++ c.token

/-- Embeds `frigateRecordingsApi.getRecordingUrl` (src/unnamed/part_004 lines
87-97): `${baseUrl}/api/${camera}/start/${start}/end/${end}/clip.mp4?token=${token}`. -/
def getRecordingUrl (c : Cfg) (startT endT : Nat) : String :=
  c.baseUrl ++ "/api/" ++ c.cameraName ++ "/start/" ++ toString startT
    ++ "/end/" ++ toString endT ++ "/clip.mp4?token=" ++ c.token

/-- Embeds `webrtcConnection.current?.disconnect()` as observed by the screen:
the peer driver is no longer live. -/
def webrtcDisconnect (s : ScreenState) : ScreenState :=
  { s with webrtcLive := false }

/-- Embeds `mseStreamService.current?.stop()` as observed by the screen. -/
def mseStop (s : ScreenState) : ScreenState :=
  { s with mseLive := false }

/-- The synchronous prefix of `fallbackToMSE`
(CameraLiveScreen_WEBRTC.tsx lines 152-158): disconnect the peer driver,
switch the stream type to `'mse'`, clear the remote stream, raise the
loading flag and set the connection state — all before the MSE service is
created and started. -/
def fallbackToMSEPre (s : ScreenState) : ScreenState :=
  let s1 := webrtcDisconnect s
  { s1 with
    streamType := StreamType.mse
    remoteStream := false
    loading := true
    connectionState := "connecting" }

/-- Embeds `createMSEStream` + `mseService.start()` succeeding: the service ref is
populated and running (CameraLiveScreen_WEBRTC.tsx lines 162-185). -/
def mseServiceStart (s : ScreenState) : ScreenState :=
  { s with mseLive := true }

/-- The `onReady(localUrl)` callback of the MSE service
(CameraLiveScreen_WEBRTC.tsx lines 164-169). -/
def mseOnReady (localUrl : String) (s : ScreenState) : ScreenState :=
  { s with mseUrl := some localUrl, loading := false, connectionState := "mse" }

/-- Embeds `fallbackToMSE` on its success path
(CameraLiveScreen_WEBRTC.tsx lines 152-190): the synchronous prefix, then
service start, then the ready callback. -/
def fallbackToMSE (localUrl : String) (s : ScreenState) : ScreenState :=
  mseOnReady localUrl (mseServiceStart (fallbackToMSEPre s))

/-- Embeds `fallbackToHLS` (CameraLiveScreen_WEBRTC.tsx lines 193-209):
disconnect the peer driver, stop the MSE service, switch to `'hls'`, build
the HLS url. -/
def fallbackToHLS (c : Cfg) (s : ScreenState) : ScreenState :=
  let s1 := mseStop (webrtcDisconnect s)
  { s1 with
    streamType := StreamType.hls
    remoteStream := false
    mseUrl := none
    hlsUrl := some (hlsStreamUrl c)
    loading := false
    connectionState := "hls" }

/-- Embeds `initializeWebRTC` up to the point where `connection.connect()` has
been issued (CameraLiveScreen_WEBRTC.tsx lines 211-249): loading raised,
error cleared, stream type `'webrtc'`, the connection ref populated. -/
def initializeWebRTC (s : ScreenState) : ScreenState :=
  { s with
    loading := true
    error := none
    streamType := StreamType.webrtc
    webrtcLive := true }

/-- The `onError` handler passed to `WebRTCConnection`
(CameraLiveScreen_WEBRTC.tsx lines 237-245): record the message and drop
the loading flag.  It neither schedules a retry nor advances the stream
type. -/
def webrtcOnError (msg : String) (s : ScreenState) : ScreenState :=
  { s with error := some msg, loading := false }

/-- The `onError` handler of the live HLS `Video` element
(CameraLiveScreen_WEBRTC.tsx lines 573-576). -/
def hlsOnError (s : ScreenState) : ScreenState :=
  { s with error := some "HLS stream failed" }

/-- The actions `initializeStream` can take on mount. -/
inductive InitAction
  | startWebrtcConnect
  | startMseService
  deriving DecidableEq, Repr

/-- Embeds `initializeStream` (CameraLiveScreen_WEBRTC.tsx lines 101-113): query
the codec hint; an H265 camera goes straight to `fallbackToMSE`, otherwise
`initializeWebRTC` runs.  The returned list records which driver start was
attempted. -/
def initializeStream (isH265 : Bool) (localUrl : String) (s : ScreenState) :
    List InitAction × ScreenState :=
  if isH265 then
    ([InitAction.startMseService], fallbackToMSE localUrl s)
  else
    ([InitAction.startWebrtcConnect], initializeWebRTC s)

/-- The screen-level handling of a go2rtc `error` signaling message coming
through the peer driver: `handleWebSocketMessage` (webrtcService.ts lines
138-148) dispatches to `onCodecError` for codec vocabulary — which the
screen implements as `fallbackToMSE` (CameraLiveScreen_WEBRTC.tsx lines
232-236) — and to `onError` otherwise. -/
def screenHandleServerError (localUrl : String) (msg : String)
    (s : ScreenState) : ScreenState :=
  if isCodecMismatchMsg msg then fallbackToMSE localUrl s
  else webrtcOnError msg s

/-- Driver-failure events the live screen can receive. -/
inductive ScreenEvent
  | webrtcCodecError (msg : String)
  | webrtcError (msg : String)
  | mseError
  | hlsError
  deriving DecidableEq, Repr

/-- One driver-failure step of the live screen:
codec errors from the peer driver run `fallbackToMSE`
(CameraLiveScreen_WEBRTC.tsx lines 232-236), other peer errors only record
the message (lines 237-245), MSE errors run `fallbackToHLS` (lines
174-178 and 546-550), HLS errors record a message (lines 573-576). -/
def stepFailure (c : Cfg) (localUrl : String) :
    ScreenEvent → ScreenState → ScreenState
  | ScreenEvent.webrtcCodecError _, s => fallbackToMSE localUrl s
  | ScreenEvent.webrtcError msg, s => webrtcOnError msg s
  | ScreenEvent.mseError, s => fallbackToHLS c s
  | ScreenEvent.hlsError, s => hlsOnError s

/-- A whole sequence of driver failures, oldest first. -/
def runFailures (c : Cfg) (localUrl : String) (es : List ScreenEvent)
    (s : ScreenState) : ScreenState :=
  es.foldl (fun st e => stepFailure c localUrl e st) s

/-- At most one transport driver live (specification §4.2 guarantee). -/
def atMostOneLive (s : ScreenState) : Bool :=
  !(s.webrtcLive && s.mseLive)

/-- Embeds `handleTimeSelect('LIVE')` (CameraLiveScreen_WEBRTC.tsx lines 334-338):
switch back to live, clear the recording url, reset readiness.  It does not
touch `buffering` or `recordingEndTime`. -/
def handleTimeSelectLive (s : ScreenState) : ScreenState :=
  { s with
    selectedTime := none
    playbackMode := PlaybackMode.live
    recordingUrl := none
    recordingReady := false }

/-- Embeds `loadRecordingSegment(startTime, endTime)`
(CameraLiveScreen_WEBRTC.tsx lines 360-370): remember where the clip ends,
set the recording url for the segment, reset readiness.  Times are
seconds. -/
def loadRecordingSegment (c : Cfg) (startT endT : Nat) (s : ScreenState) :
    ScreenState :=
  { s with
    recordingEndTime := endT
    recordingUrl := some (getRecordingUrl c startT endT)
    recordingReady := false }

/-- Embeds `handleTimeSelect(timestamp)` with the `try` block succeeding
(CameraLiveScreen_WEBRTC.tsx lines 339-356): enter timeline mode, raise
`buffering`, then load the segment from `floor(timestamp/1000)` to
`floor(Date.now()/1000)`.  `tMs` and `nowMs` are epoch milliseconds. -/
def handleTimeSelectRec (c : Cfg) (nowMs tMs : Nat) (s : ScreenState) :
    ScreenState :=
  let s1 :=
    { s with
      selectedTime := some tMs
      playbackMode := PlaybackMode.timeline
      recordingReady := false
      buffering := true }
  loadRecordingSegment c (tMs / 1000) (nowMs / 1000) s1

/-- Embeds `handleTimeSelect(timestamp)` with the `try` block throwing — the
`catch` path (CameraLiveScreen_WEBRTC.tsx lines 351-355): the screen stays
in timeline mode, records `'Failed to load recording'` and drops
`buffering`. -/
def handleTimeSelectRecFail (tMs : Nat) (s : ScreenState) : ScreenState :=
  { s with
    selectedTime := some tMs
    playbackMode := PlaybackMode.timeline
    recordingReady := false
    buffering := false
    error := some "Failed to load recording" }

/-- Embeds `handleGoLive` (CameraLiveScreen_WEBRTC.tsx lines 391-395), which is
`handleTimeSelect('LIVE')` plus a scroll-to-top side effect. -/
def handleGoLive (s : ScreenState) : ScreenState :=
  handleTimeSelectLive s

/-- Embeds `handleRecordingEnd` (CameraLiveScreen_WEBRTC.tsx lines 373-389):
`gap = floor(Date.now()/1000) - recordingEndTime`; within 10 seconds of
live, go live; otherwise raise `buffering` and load the next segment from
the previous end to now.  `nowSec` is epoch seconds; the gap is computed in
`Int` as in JavaScript. -/
def handleRecordingEnd (c : Cfg) (nowSec : Nat) (s : ScreenState) :
    ScreenState :=
  if (nowSec : Int) - (s.recordingEndTime : Int) ≤ 10 then
    handleGoLive s
  else
    loadRecordingSegment c s.recordingEndTime nowSec { s with buffering := true }

/-- Embeds `onReadyForDisplay` of the timeline-playback `Video` element
(CameraLiveScreen_WEBRTC.tsx lines 595-599).  The handler inspects nothing:
whatever load completes sets readiness and clears `buffering`. -/
def recordingOnReady (s : ScreenState) : ScreenState :=
  { s with recordingReady := true, buffering := false }

/-- Embeds `onError` of the timeline-playback `Video` element
(CameraLiveScreen_WEBRTC.tsx lines 615-621): record
`'Failed to play recording'`, drop `buffering`, then `handleGoLive()`. -/
def recordingOnError (s : ScreenState) : ScreenState :=
  handleGoLive { s with error := some "Failed to play recording", buffering := false }

/-- Embeds `type StreamType = 'll-hls' | 'rtsp' | 'mjpeg'` of the native-player
screen (CameraLiveScreen_MJPEG.tsx line 469). -/
inductive NStreamType
  | llhls
  | rtsp
  | mjpeg
  deriving DecidableEq, Repr

/-- The state cells of `CameraLiveScreenNative` that its auto-retry effect
reads and writes (CameraLiveScreen_MJPEG.tsx lines 485-490). -/
structure NativeState where
  streamType : NStreamType
  error : Option String
  retryCount : Nat
  deriving DecidableEq, Repr

/-- What the native screen's auto-retry `useEffect` decides to do. -/
inductive RetryEffect
  | scheduleRetry (delayMs : Nat) (next : NativeState)
  | advance (next : NativeState)
  | nothing
  deriving DecidableEq, Repr

/-- The auto-retry-with-fallback effect of the native-player screen
(CameraLiveScreen_MJPEG.tsx lines 594-617): with an error present and
`retryCount < 3`, schedule a retry of the same stream type after 2000 ms,
clearing the error and bumping the count; with `retryCount >= 3`, advance
`ll-hls → rtsp → mjpeg` resetting the count; `mjpeg` has no further
fallback. -/
def autoRetryEffect (s : NativeState) : RetryEffect :=
  match s.error with
  | none => RetryEffect.nothing
  | some _ =>
    if s.retryCount < 3 then
      RetryEffect.scheduleRetry 2000
        { s with error := none, retryCount := s.retryCount + 1 }
    else
      match s.streamType with
      | NStreamType.llhls =>
          RetryEffect.advance
            { streamType := NStreamType.rtsp, error := none, retryCount := 0 }
      | NStreamType.rtsp =>
          RetryEffect.advance
            { streamType := NStreamType.mjpeg, error := none, retryCount := 0 }
      | NStreamType.mjpeg => RetryEffect.nothing

/-- Embeds `handleLoad` of the native-player screen on a successful load
(CameraLiveScreen_MJPEG.tsx lines 619-624): clear the error and reset the
retry count. -/
def nativeHandleLoad (s : NativeState) : NativeState :=
  { s with error := none, retryCount := 0 }

/-- The reconnection state of `FrigateWebSocketService`
(frigateWebSocket.ts lines 68-71): `reconnectAttempts` starts at 0,
`maxReconnectAttempts = 10`, `reconnectDelay = 2000`. -/
structure WSState where
  reconnectAttempts : Nat
  reconnectDelay : Nat
  deriving DecidableEq, Repr

/-- Initial reconnection state (frigateWebSocket.ts lines 69-71). -/
def wsInitial : WSState := { reconnectAttempts := 0, reconnectDelay := 2000 }

/-- Embeds `maxReconnectAttempts` (frigateWebSocket.ts line 70). -/
def maxReconnectAttempts : Nat := 10

/-- Embeds `scheduleReconnect` (frigateWebSocket.ts lines 156-170): give up once
`reconnectAttempts >= maxReconnectAttempts`; otherwise increment the count
and schedule a reconnect after
`min(reconnectDelay * reconnectAttempts, 30000)` ms.  Returns the new
state and the scheduled delay (`none` when no retry is scheduled). -/
def scheduleReconnect (s : WSState) : WSState × Option Nat :=
  if s.reconnectAttempts ≥ maxReconnectAttempts then (s, none)
  else
    let attempts := s.reconnectAttempts + 1
    ({ s with reconnectAttempts := attempts },
      some (min (s.reconnectDelay * attempts) 30000))

/-- Embeds `connect`'s `onopen` handler (frigateWebSocket.ts lines 107-112):
reset the failure count and the delay to baseline. -/
def wsOnOpen (s : WSState) : WSState :=
  { s with reconnectAttempts := 0, reconnectDelay := 2000 }

/-- Signals a transport driver delivers to the screen. -/
inductive DriverSignal
  | mediaReady
  | codecFailure (msg : String)
  | failure (msg : String)
  deriving DecidableEq, Repr

/-- Environment events a `WebRTCConnection.connect` attempt can receive.
`timer10s` is the 10000 ms timer armed in `openWebSocket`
(webrtcService.ts lines 118-122); the events preceding it in a trace are
those arriving within the 10-second window. -/
inductive WrtcEvt
  | sockOpen
  | sockError
  | srvAnswer
  | srvError (msg : String)
  | track
  | connStateChange (st : String)
  | timer10s
  deriving DecidableEq, Repr

/-- One event of a `WebRTCConnection.connect` attempt.  The boolean is
whether the `openWebSocket` promise is already settled (resolved by
`onopen`, webrtcService.ts line 100, or rejected by `onerror`, line 105,
or by the 10-second timer, lines 118-122; later settlements are no-ops).
A rejection propagates through `connect`'s catch to `config.onError`
(lines 79-86).  `srvError` runs `handleWebSocketMessage`'s `error` branch
(lines 138-148); `track` fires `onRemoteStream` (lines 206-212);
`connStateChange` with `failed`/`disconnected`/`closed` fires `onError`
(lines 226-238).  Neither an answer nor a media track is guarded by any
timer. -/
def wrtcStep (settled : Bool) : WrtcEvt → Bool × List DriverSignal
  | WrtcEvt.sockOpen => (true, [])
  | WrtcEvt.sockError =>
      if settled then (settled, [])
      else (true, [DriverSignal.failure "WebSocket connection failed"])
  | WrtcEvt.srvAnswer => (settled, [])
  | WrtcEvt.srvError msg =>
      (settled,
        if isCodecMismatchMsg msg then [DriverSignal.codecFailure msg]
        else [DriverSignal.failure msg])
  | WrtcEvt.track => (settled, [DriverSignal.mediaReady])
  | WrtcEvt.connStateChange st =>
      (settled,
        if st = "failed" || st = "disconnected" || st = "closed" then
          [DriverSignal.failure ("Connection " ++ st)]
        else [])
  | WrtcEvt.timer10s =>
      if settled then (settled, [])
      else (true, [DriverSignal.failure "WebSocket connection timeout"])

/-- Signals emitted by a `WebRTCConnection.connect` attempt over a trace of
environment events, starting with the promise unsettled. -/
def wrtcRunFrom (settled : Bool) : List WrtcEvt → List DriverSignal
  | [] => []
  | e :: rest =>
      let r := wrtcStep settled e
      r.2 ++ wrtcRunFrom r.1 rest

/-- Signals of a fresh `connect` attempt. -/
def wrtcRun (events : List WrtcEvt) : List DriverSignal :=
  wrtcRunFrom false events

/-- Holds (`true`) for the WebRTC-connect events that neither resolve nor reject
the `openWebSocket` promise. -/
def wrtcNonSettling : WrtcEvt → Bool
  | WrtcEvt.sockOpen => false
  | WrtcEvt.sockError => false
  | WrtcEvt.timer10s => false
  | _ => true

/-- Embeds `maxBufferSize` of the MSE local relay (mseStreamService.ts line 39). -/
def maxBufferSize : Nat := 50

/-- The fMP4 buffers of `MSEStreamService` (mseStreamService.ts lines
37-39).  A chunk is its list of byte values. -/
structure MseBufState where
  initSegment : Option (List Nat)
  mediaBuffer : List (List Nat)
  deriving DecidableEq, Repr

/-- Buffers on service creation / after `stop()`
(mseStreamService.ts lines 37-38 and 106-108). -/
def mseBufInitial : MseBufState := { initSegment := none, mediaBuffer := [] }

/-- The init-segment test of `handleFMP4Data`
(mseStreamService.ts lines 349-351):
`data.length > 8 && data[4] === 0x66 && data[5] === 0x74 && data[6] === 0x79 && data[7] === 0x70`. -/
def isInitChunk (d : List Nat) : Bool :=
  decide (8 < d.length) && (d.getD 4 0 == 0x66) && (d.getD 5 0 == 0x74)
    && (d.getD 6 0 == 0x79) && (d.getD 7 0 == 0x70)

/-- One round of the trimming loop per unit of fuel: shift the oldest
chunk while the buffer is over `maxBufferSize`. -/
def trimBufferAux : Nat → List (List Nat) → List (List Nat)
  | 0, buf => buf
  | n + 1, buf =>
      if buf.length > maxBufferSize then trimBufferAux n buf.tail else buf

/-- The trimming loop of `handleFMP4Data`
(mseStreamService.ts lines 364-366):
`while (mediaBuffer.length > maxBufferSize) mediaBuffer.shift()`.
Each shift strictly shrinks the buffer, so `buf.length` rounds of fuel
always reach the loop's exit condition. -/
def trimBuffer (buf : List (List Nat)) : List (List Nat) :=
  trimBufferAux buf.length buf

/-- Embeds `handleFMP4Data` (mseStreamService.ts lines 343-378) restricted to the
buffers: an init chunk replaces `initSegment` and returns before touching
the media buffer; any other chunk is pushed and the buffer trimmed from
the front. -/
def handleFMP4Data (d : List Nat) (s : MseBufState) : MseBufState :=
  if isInitChunk d then { s with initSegment := some d }
  else { s with mediaBuffer := trimBuffer (s.mediaBuffer ++ [d]) }

/-- The chunks `serveStream` writes to a newly connected HTTP client after
the response headers (mseStreamService.ts lines 213-223): the init segment
if present, then every buffered media chunk in order. -/
def serveStreamChunks (s : MseBufState) : List (List Nat) :=
  (match s.initSegment with
    | some i => [i]
    | none => []) ++ s.mediaBuffer

/-- Environment events of an `MSEStreamService.connectWebSocket` attempt
(mseStreamService.ts lines 264-341).  `timer10s` is the 10000 ms timer of
lines 279-284. -/
inductive MseEvt
  | sockOpen
  | msgMse (mime : String)
  | msgError (v : String)
  | binaryChunk (data : List Nat)
  | sockError
  | sockClose (reason : String)
  | timer10s
  deriving DecidableEq, Repr

/-- One event of an `MSEStreamService` connect attempt over the pair
(`resolved` flag, buffers).  `msgMse` resolves the connect promise
(mseStreamService.ts lines 299-309), after which `start()` announces the
relay url via `onReady` — the media-ready signal (lines 62-67);
`msgError` only forwards `onError` without settling (lines 310-313);
`onerror`, `onclose` and the timer reject when not yet resolved (lines
279-339); binary data feeds `handleFMP4Data` (lines 317-319). -/
def mseStep (st : Bool × MseBufState) :
    MseEvt → (Bool × MseBufState) × List DriverSignal
  | MseEvt.sockOpen => (st, [])
  | MseEvt.msgMse _ =>
      if st.1 then (st, [])
      else ((true, st.2), [DriverSignal.mediaReady])
  | MseEvt.msgError v => (st, [DriverSignal.failure v])
  | MseEvt.binaryChunk d => ((st.1, handleFMP4Data d st.2), [])
  | MseEvt.sockError =>
      if st.1 then (st, [])
      else ((true, st.2), [DriverSignal.failure "WebSocket connection failed"])
  | MseEvt.sockClose r =>
      if st.1 then (st, [])
      else ((true, st.2), [DriverSignal.failure ("WebSocket closed: " ++ r)])
  | MseEvt.timer10s =>
      if st.1 then (st, [])
      else ((true, st.2), [DriverSignal.failure "WebSocket connection timeout"])

/-- Signals emitted by an `MSEStreamService` connect attempt over a trace
of environment events. -/
def mseRunFrom (st : Bool × MseBufState) : List MseEvt → List DriverSignal
  | [] => []
  | e :: rest =>
      let r := mseStep st e
      r.2 ++ mseRunFrom r.1 rest

/-- Signals of a fresh MSE connect attempt. -/
def mseRun (events : List MseEvt) : List DriverSignal :=
  mseRunFrom (false, mseBufInitial) events

/-- Holds (`true`) for the MSE-connect events that do not settle the connect
promise. -/
def mseNonSettling : MseEvt → Bool
  | MseEvt.msgMse _ => false
  | MseEvt.sockError => false
  | MseEvt.sockClose _ => false
  | MseEvt.timer10s => false
  | _ => true

/-- A concrete configuration used by witnesses and counterexamples. -/
def sampleCfg : Cfg :=
  { cameraName := "front_door", baseUrl := "https://nvr.example", token := "tok" }

/-- A concrete local-relay url used by witnesses and counterexamples. -/
def sampleUrl : String := mseLocalUrl 9999

/-- An 8-byte chunk whose bytes at offsets 4-7 spell `ftyp`
(`0x66 0x74 0x79 0x70`) but which fails `handleFMP4Data`'s strict
`data.length > 8` test (mseStreamService.ts line 349). -/
def ftypEdgeChunk : List Nat := [0, 0, 0, 8, 0x66, 0x74, 0x79, 0x70]

/-- The screen state after opening a session for an H264 camera: the
result of `initializeStream` on the non-H265 branch. -/
def sessionAfterH264Open : ScreenState :=
  (initializeStream false sampleUrl initialScreenState).2

theorem stepFailure_preserves_atMostOneLive (c : Cfg) (u : String)
    (e : ScreenEvent) (s : ScreenState) (h : atMostOneLive s = true) :
    atMostOneLive (stepFailure c u e s) = true := by
  cases e with
  | webrtcCodecError msg =>
      simp [stepFailure, fallbackToMSE, mseOnReady, mseServiceStart,
        fallbackToMSEPre, webrtcDisconnect, atMostOneLive]
  | webrtcError msg =>
      simpa [stepFailure, webrtcOnError, atMostOneLive] using h
  | mseError =>
      simp [stepFailure, fallbackToHLS, mseStop, webrtcDisconnect, atMostOneLive]
  | hlsError =>
      simpa [stepFailure, hlsOnError, atMostOneLive] using h

theorem runFailures_preserves_atMostOneLive (es : List ScreenEvent) :
    ∀ (c : Cfg) (u : String) (s : ScreenState), atMostOneLive s = true →
      atMostOneLive (runFailures c u es s) = true := by
  induction es with
  | nil => intro c u s h; simpa [runFailures] using h
  | cons e rest ih =>
      intro c u s h
      have h1 := stepFailure_preserves_atMostOneLive c u e s h
      simpa [runFailures] using ih c u (stepFailure c u e s) h1

/-- C2: for a camera whose codec hint marks it H265 (incompatible with the
peer transport), `initializeStream` never issues a WebRTC connect: the
only driver start is the MSE service, the resulting stream type is `'mse'`
and no peer connection is live; the WebRTC connect is issued exactly on
the non-H265 branch (CameraLiveScreen_WEBRTC.tsx lines 101-113). -/
theorem h265_camera_skips_webrtc (localUrl : String) (s : ScreenState) :
    (initializeStream true localUrl s).1 = [InitAction.startMseService]
    ∧ (initializeStream true localUrl s).2.streamType = StreamType.mse
    ∧ (initializeStream true localUrl s).2.webrtcLive = false
    ∧ (initializeStream false localUrl s).1 = [InitAction.startWebrtcConnect] := by
  refine ⟨rfl, ?_, ?_, rfl⟩ <;>
    simp [initializeStream, fallbackToMSE, mseOnReady, mseServiceStart,
      fallbackToMSEPre, webrtcDisconnect]

/-- C3: a go2rtc server error whose message carries codec-negotiation
vocabulary is classified `CodecUnsupported`, and the screen's handling of
it is exactly one immediate `fallbackToMSE`: the stream type becomes
`'mse'`, the peer driver is disconnected, and no retry of the peer
transport happens (webrtcService.ts lines 138-148,
CameraLiveScreen_WEBRTC.tsx lines 232-236). -/
theorem codec_error_advances_to_mse (msg localUrl : String) (s : ScreenState)
    (h : isCodecMismatchMsg msg = true) :
    classifyServerError msg = FailureCategory.codecUnsupported
    ∧ screenHandleServerError localUrl msg s = fallbackToMSE localUrl s
    ∧ (screenHandleServerError localUrl msg s).streamType = StreamType.mse
    ∧ (screenHandleServerError localUrl msg s).webrtcLive = false := by
  refine ⟨?_, ?_, ?_, ?_⟩ <;>
    simp [classifyServerError, screenHandleServerError, h, fallbackToMSE,
      mseOnReady, mseServiceStart, fallbackToMSEPre, webrtcDisconnect]

/-- C3 witness: the exact go2rtc message shape on a concrete state. -/
theorem codec_error_advances_to_mse_witness :
    isCodecMismatchMsg "streams: codecs not matched: H265 PCMA" = true
    ∧ classifyServerError "streams: codecs not matched: H265 PCMA"
        = FailureCategory.codecUnsupported
    ∧ (screenHandleServerError sampleUrl "streams: codecs not matched: H265 PCMA"
        sessionAfterH264Open).streamType = StreamType.mse :=
  ⟨by decide,
    (codec_error_advances_to_mse "streams: codecs not matched: H265 PCMA"
      sampleUrl sessionAfterH264Open (by decide)).1,
    (codec_error_advances_to_mse "streams: codecs not matched: H265 PCMA"
      sampleUrl sessionAfterH264Open (by decide)).2.2.1⟩

/-- C4: along any sequence of driver failures, at most one transport
driver is live at any time; and when the engine advances kinds, the
previous driver is disconnected first: `fallbackToMSE` is the synchronous
prefix — in which the peer driver is already disconnected — followed by
the MSE service start (CameraLiveScreen_WEBRTC.tsx lines 152-158), and
`fallbackToHLS` leaves neither previous driver live (lines 193-199). -/
theorem at_most_one_driver_live :
    (∀ (c : Cfg) (u : String) (es : List ScreenEvent) (s : ScreenState),
      atMostOneLive s = true → atMostOneLive (runFailures c u es s) = true)
    ∧ (∀ (u : String) (s : ScreenState),
      fallbackToMSE u s = mseOnReady u (mseServiceStart (fallbackToMSEPre s))
      ∧ (fallbackToMSEPre s).webrtcLive = false
      ∧ (fallbackToMSEPre s).mseLive = s.mseLive)
    ∧ (∀ (c : Cfg) (s : ScreenState),
      (fallbackToHLS c s).webrtcLive = false
      ∧ (fallbackToHLS c s).mseLive = false) := by
  refine ⟨fun c u es s h => runFailures_preserves_atMostOneLive es c u s h,
    fun u s => ⟨rfl, ?_, ?_⟩, fun c s => ⟨?_, ?_⟩⟩ <;>
    simp [fallbackToMSEPre, webrtcDisconnect, fallbackToHLS, mseStop]

/-- C4 witness: the invariant holds along the concrete failure sequence
peer codec error, then MSE error, starting from a fresh H264 session. -/
theorem at_most_one_driver_live_witness :
    atMostOneLive (runFailures sampleCfg sampleUrl
      [ScreenEvent.webrtcCodecError "codecs not matched", ScreenEvent.mseError]
      sessionAfterH264Open) = true :=
  at_most_one_driver_live.1 sampleCfg sampleUrl
    [ScreenEvent.webrtcCodecError "codecs not matched", ScreenEvent.mseError]
    sessionAfterH264Open (by decide)

/-- C5: when a playing segment ends, `handleRecordingEnd` computes
`gap = now - recordingEndTime`; with `gap ≤ 10` seconds it goes live
(clearing the recording url), and otherwise it loads a next segment whose
url is built from `start = previous end` and `end = fresh now`, recording
the new end — no gap and no overlap between consecutive segments
(CameraLiveScreen_WEBRTC.tsx lines 373-389 and 360-370). -/
theorem recording_end_catchup (c : Cfg) (nowSec : Nat) (s : ScreenState) :
    ((nowSec : Int) - (s.recordingEndTime : Int) ≤ 10 →
      (handleRecordingEnd c nowSec s).playbackMode = PlaybackMode.live
      ∧ (handleRecordingEnd c nowSec s).recordingUrl = none)
    ∧ (10 < (nowSec : Int) - (s.recordingEndTime : Int) →
      (handleRecordingEnd c nowSec s).recordingUrl
          = some (getRecordingUrl c s.recordingEndTime nowSec)
      ∧ (handleRecordingEnd c nowSec s).recordingEndTime = nowSec
      ∧ (handleRecordingEnd c nowSec s).playbackMode = s.playbackMode) := by
  constructor
  · intro h
    simp [handleRecordingEnd, h, handleGoLive, handleTimeSelectLive]
  · intro h
    rw [handleRecordingEnd, if_neg (by omega)]
    simp [loadRecordingSegment]

/-- C5 witness: both branches at concrete times — a 5-second gap cuts back
to live, a 100-second gap fetches the adjoining segment. -/
theorem recording_end_catchup_witness :
    (handleRecordingEnd sampleCfg 1005
        { initialScreenState with
            playbackMode := PlaybackMode.timeline
            recordingEndTime := 1000 }).playbackMode = PlaybackMode.live
    ∧ (handleRecordingEnd sampleCfg 1100
        { initialScreenState with
            playbackMode := PlaybackMode.timeline
            recordingEndTime := 1000 }).recordingUrl
        = some (getRecordingUrl sampleCfg 1000 1100) :=
  ⟨((recording_end_catchup sampleCfg 1005
      { initialScreenState with
          playbackMode := PlaybackMode.timeline
          recordingEndTime := 1000 }).1 (by decide)).1,
    ((recording_end_catchup sampleCfg 1100
      { initialScreenState with
          playbackMode := PlaybackMode.timeline
          recordingEndTime := 1000 }).2 (by decide)).1⟩

/-- C6: `scheduleReconnect` schedules the reconnect after
`min(reconnectDelay * attempts, 30000)` ms — with the baseline delay of
2000 ms that is the base times the consecutive-failure count, capped at
30 s, non-decreasing across consecutive failures; a successful `onopen`
resets the count and delay to baseline; and once 10 attempts have been
made no further retry is scheduled
(frigateWebSocket.ts lines 107-112 and 156-170). -/
theorem backoff_policy (s : WSState) :
    (s.reconnectDelay = 2000 → s.reconnectAttempts < maxReconnectAttempts →
      (scheduleReconnect s).2
          = some (min (2000 * (s.reconnectAttempts + 1)) 30000)
      ∧ (scheduleReconnect s).1.reconnectAttempts = s.reconnectAttempts + 1)
    ∧ (∀ d1 d2, (scheduleReconnect s).2 = some d1 →
        (scheduleReconnect (scheduleReconnect s).1).2 = some d2 → d1 ≤ d2)
    ∧ wsOnOpen s = wsInitial
    ∧ (maxReconnectAttempts ≤ s.reconnectAttempts →
        (scheduleReconnect s).2 = none) := by
  refine ⟨?_, ?_, rfl, ?_⟩
  · intro hd hn
    rw [scheduleReconnect, if_neg (by omega)]
    simp [hd, Nat.mul_comm]
  · intro d1 d2 h1 h2
    by_cases hn : s.reconnectAttempts ≥ maxReconnectAttempts
    · rw [scheduleReconnect, if_pos hn] at h1
      exact absurd h1 (by simp)
    · have hfst : (scheduleReconnect s).1 =
          { reconnectAttempts := s.reconnectAttempts + 1,
            reconnectDelay := s.reconnectDelay } := by
        rw [scheduleReconnect, if_neg hn]
      rw [scheduleReconnect, if_neg hn] at h1
      simp only [Option.some.injEq] at h1
      rw [hfst] at h2
      by_cases hn2 : s.reconnectAttempts + 1 ≥ maxReconnectAttempts
      · rw [scheduleReconnect, if_pos hn2] at h2
        exact absurd h2 (by simp)
      · rw [scheduleReconnect, if_neg hn2] at h2
        simp only [Option.some.injEq] at h2
        subst h1; subst h2
        exact min_le_min (Nat.mul_le_mul_left _ (by omega)) (le_refl 30000)
  · intro h
    rw [scheduleReconnect, if_pos h]

/-- C6 witness: from the initial state the first delay is 2000 ms; from
nine prior failures the tenth delay is 20000 ms; after ten attempts no
retry is scheduled; reconnecting successfully resets the state. -/
theorem backoff_policy_witness :
    (scheduleReconnect wsInitial).2 = some (min (2000 * 1) 30000)
    ∧ (scheduleReconnect
        { reconnectAttempts := 9, reconnectDelay := 2000 }).2
        = some (min (2000 * 10) 30000)
    ∧ (scheduleReconnect
        { reconnectAttempts := 10, reconnectDelay := 2000 }).2 = none
    ∧ wsOnOpen { reconnectAttempts := 7, reconnectDelay := 2000 } = wsInitial :=
  ⟨((backoff_policy wsInitial).1 rfl (by decide)).1,
    ((backoff_policy { reconnectAttempts := 9, reconnectDelay := 2000 }).1
      rfl (by decide)).1,
    (backoff_policy { reconnectAttempts := 10, reconnectDelay := 2000 }).2.2.2
      (by decide),
    (backoff_policy { reconnectAttempts := 7, reconnectDelay := 2000 }).2.2.1⟩

/-- C1 counterexample: in the live screen the claims source cites, a
retryable driver failure is never retried.  Starting from a fresh H264
session, after a peer codec error the active kind is `'mse'`; the very
first MSE failure — a `SocketTimeout`/`DecodeError`-class failure, with
zero retries of that kind consumed, fewer than 3 — advances the kind to
`'hls'` instead of retrying `'mse'`.  Likewise a non-codec peer failure
(`SignalingFailed` class) only records the error message: the state is
exactly `webrtcOnError` of the old state — no retry is scheduled and no
kind is advanced (CameraLiveScreen_WEBRTC.tsx lines 174-178, 237-245). -/
theorem no_retry_before_advance_counterexample :
    (runFailures sampleCfg sampleUrl
        [ScreenEvent.webrtcCodecError "codecs not matched"]
        sessionAfterH264Open).streamType = StreamType.mse
    ∧ (runFailures sampleCfg sampleUrl
        [ScreenEvent.webrtcCodecError "codecs not matched", ScreenEvent.mseError]
        sessionAfterH264Open).streamType = StreamType.hls
    ∧ stepFailure sampleCfg sampleUrl
        (ScreenEvent.webrtcError "ICE connection failed") sessionAfterH264Open
      = webrtcOnError "ICE connection failed" sessionAfterH264Open := by
  refine ⟨by decide, by decide, rfl⟩

/-- C1 amended: the 3-retries-then-advance policy lives in the
native-player screen, not in the cited live screen.  There, a stream
error with `retryCount < 3` schedules a retry of the same stream type
after a fixed 2000 ms delay, clearing the error and bumping the count;
once the budget is exhausted (`retryCount ≥ 3`) the screen advances
`ll-hls → rtsp → mjpeg` with the count reset, and the terminal `mjpeg`
kind is never advanced (CameraLiveScreen_MJPEG.tsx lines 594-617).  In
the live screen the counterexample applies: failures advance or stall
immediately, consuming no retries. -/
theorem native_retry_budget (s : NativeState) (m : String)
    (h : s.error = some m) :
    (s.retryCount < 3 →
      autoRetryEffect s = RetryEffect.scheduleRetry 2000
        { streamType := s.streamType, error := none,
          retryCount := s.retryCount + 1 })
    ∧ (3 ≤ s.retryCount → s.streamType = NStreamType.llhls →
      autoRetryEffect s = RetryEffect.advance
        { streamType := NStreamType.rtsp, error := none, retryCount := 0 })
    ∧ (3 ≤ s.retryCount → s.streamType = NStreamType.rtsp →
      autoRetryEffect s = RetryEffect.advance
        { streamType := NStreamType.mjpeg, error := none, retryCount := 0 })
    ∧ (3 ≤ s.retryCount → s.streamType = NStreamType.mjpeg →
      autoRetryEffect s = RetryEffect.nothing) := by
  constructor
  · intro hlt
    simp [autoRetryEffect, h, hlt]
  refine ⟨fun hge ht => ?_, fun hge ht => ?_, fun hge ht => ?_⟩ <;>
    simp [autoRetryEffect, h, ht, Nat.not_lt.mpr hge]

/-- C1 amended witness: two failures in, the third retry of `ll-hls` is
scheduled after 2000 ms; with the budget exhausted the screen advances to
`rtsp`. -/
theorem native_retry_budget_witness :
    autoRetryEffect
        { streamType := NStreamType.llhls, error := some "e", retryCount := 2 }
      = RetryEffect.scheduleRetry 2000
        { streamType := NStreamType.llhls, error := none, retryCount := 3 }
    ∧ autoRetryEffect
        { streamType := NStreamType.llhls, error := some "e", retryCount := 3 }
      = RetryEffect.advance
        { streamType := NStreamType.rtsp, error := none, retryCount := 0 } :=
  ⟨(native_retry_budget
      { streamType := NStreamType.llhls, error := some "e", retryCount := 2 }
      "e" rfl).1 (by decide),
    (native_retry_budget
      { streamType := NStreamType.llhls, error := some "e", retryCount := 3 }
      "e" rfl).2.1 (by decide) rfl⟩

/-- C7 counterexample: recorded-mode failures are reported, and the fetch
path does not fall back.  When `handleTimeSelect`'s segment-fetch `try`
block throws, the controller stays in timeline (Recorded) mode with
`'Failed to load recording'` written into the same `error` cell that
drives the screen's terminal "Connection Failed" overlay — no fallback to
Live happens (CameraLiveScreen_WEBRTC.tsx lines 351-355).  Even on the
playback-error path, which does go live, the failure is written into that
same `error` cell (lines 615-621). -/
theorem recorded_failure_counterexample :
    (handleTimeSelectRecFail 50000
        (handleTimeSelectRec sampleCfg 100000 50000 initialScreenState)).playbackMode
      = PlaybackMode.timeline
    ∧ (handleTimeSelectRecFail 50000
        (handleTimeSelectRec sampleCfg 100000 50000 initialScreenState)).error
      = some "Failed to load recording"
    ∧ (recordingOnError
        (handleTimeSelectRec sampleCfg 100000 50000 initialScreenState)).error
      = some "Failed to play recording" := by
  refine ⟨rfl, rfl, rfl⟩

/-- C7 amended: a recorded-mode playback error does fall back to Live —
`recordingOnError` always ends in live mode with the recording url
cleared — but it records `'Failed to play recording'` in the error cell;
a segment-fetch failure during `handleTimeSelect` records
`'Failed to load recording'` and drops `buffering` while remaining in
Recorded (timeline) mode (CameraLiveScreen_WEBRTC.tsx lines 615-621,
391-395 and 351-355). -/
theorem recorded_failure_paths (s : ScreenState) (tMs : Nat) :
    (recordingOnError s).playbackMode = PlaybackMode.live
    ∧ (recordingOnError s).recordingUrl = none
    ∧ (recordingOnError s).error = some "Failed to play recording"
    ∧ (recordingOnError s).buffering = false
    ∧ (handleTimeSelectRecFail tMs s).playbackMode = PlaybackMode.timeline
    ∧ (handleTimeSelectRecFail tMs s).error = some "Failed to load recording"
    ∧ (handleTimeSelectRecFail tMs s).buffering = false := by
  refine ⟨?_, ?_, ?_, ?_, rfl, rfl, rfl⟩ <;>
    simp [recordingOnError, handleGoLive, handleTimeSelectLive]

/-- C8 counterexample: there is no generation counter.  Select a past
timestamp, then select `'LIVE'` before the first selection's load
resolves.  The first call's `buffering := true` is still observable after
the second call (the `'LIVE'` branch never writes `buffering`), and when
the superseded load's `onReadyForDisplay` completion arrives it still
mutates the state — the handler is unguarded, so the stale completion
flips `recordingReady` to `true` (CameraLiveScreen_WEBRTC.tsx lines
330-357 and 595-599). -/
theorem stale_select_counterexample :
    (handleTimeSelectLive
        (handleTimeSelectRec sampleCfg 100000 50000 initialScreenState)).buffering
      = true
    ∧ (handleTimeSelectLive
        (handleTimeSelectRec sampleCfg 100000 50000 initialScreenState)).recordingReady
      = false
    ∧ recordingOnReady
        (handleTimeSelectLive
          (handleTimeSelectRec sampleCfg 100000 50000 initialScreenState))
      ≠ handleTimeSelectLive
          (handleTimeSelectRec sampleCfg 100000 50000 initialScreenState) := by
  refine ⟨rfl, rfl, by decide⟩

/-- C8 amended: `handleTimeSelect`'s own writes are synchronous, so the
fields the second call writes are determined by the second call alone;
but no generation counter exists: a `'LIVE'` selection leaves `buffering`
and `recordingEndTime` at whatever the superseded call set, and the
load-completion handler sets `recordingReady`/clears `buffering`
unconditionally, so a completion belonging to a superseded selection that
arrives after the second call still mutates the state
(CameraLiveScreen_WEBRTC.tsx lines 330-357, 334-338 and 595-599). -/
theorem select_time_generation (c : Cfg) (n1 n2 t1 t2 : Nat) (s : ScreenState) :
    (handleTimeSelectRec c n2 t2 (handleTimeSelectRec c n1 t1 s)).recordingUrl
        = some (getRecordingUrl c (t2 / 1000) (n2 / 1000))
    ∧ (handleTimeSelectRec c n2 t2 (handleTimeSelectRec c n1 t1 s)).selectedTime
        = some t2
    ∧ (handleTimeSelectRec c n2 t2 (handleTimeSelectRec c n1 t1 s)).recordingEndTime
        = n2 / 1000
    ∧ (handleTimeSelectLive s).buffering = s.buffering
    ∧ (handleTimeSelectLive s).recordingEndTime = s.recordingEndTime
    ∧ (recordingOnReady s).recordingReady = true
    ∧ (recordingOnReady s).buffering = false := by
  refine ⟨?_, ?_, ?_, rfl, rfl, rfl, rfl⟩ <;>
    simp [handleTimeSelectRec, loadRecordingSegment]

theorem wrtc_nonSettling_keeps_unsettled (pre : List WrtcEvt) :
    ∀ (rest : List WrtcEvt), (∀ e ∈ pre, wrtcNonSettling e = true) →
      wrtcRunFrom false (pre ++ WrtcEvt.timer10s :: rest)
        = wrtcRunFrom false pre
          ++ DriverSignal.failure "WebSocket connection timeout"
            :: wrtcRunFrom true rest := by
  induction pre with
  | nil =>
      intro rest _
      simp [wrtcRunFrom, wrtcStep]
  | cons e pre ih =>
      intro rest h
      have he : wrtcNonSettling e = true := h e (List.mem_cons_self e pre)
      have hpre : ∀ x ∈ pre, wrtcNonSettling x = true :=
        fun x hx => h x (List.mem_cons_of_mem e hx)
      cases e with
      | sockOpen => exact absurd he (by decide)
      | sockError => exact absurd he (by decide)
      | timer10s => exact absurd he (by decide)
      | srvAnswer => simpa [wrtcRunFrom, wrtcStep] using ih rest hpre
      | srvError msg => simpa [wrtcRunFrom, wrtcStep] using ih rest hpre
      | track => simpa [wrtcRunFrom, wrtcStep] using ih rest hpre
      | connStateChange st => simpa [wrtcRunFrom, wrtcStep] using ih rest hpre

theorem mse_nonSettling_run (pre : List MseEvt) :
    ∀ (buf : MseBufState) (rest : List MseEvt),
      (∀ e ∈ pre, mseNonSettling e = true) →
      DriverSignal.failure "WebSocket connection timeout"
        ∈ mseRunFrom (false, buf) (pre ++ MseEvt.timer10s :: rest) := by
  induction pre with
  | nil =>
      intro buf rest _
      simp [mseRunFrom, mseStep]
  | cons e pre ih =>
      intro buf rest h
      have he : mseNonSettling e = true := h e (List.mem_cons_self e pre)
      have hpre : ∀ x ∈ pre, mseNonSettling x = true :=
        fun x hx => h x (List.mem_cons_of_mem e hx)
      cases e with
      | msgMse mime => simp [mseNonSettling] at he
      | sockError => simp [mseNonSettling] at he
      | sockClose r => simp [mseNonSettling] at he
      | timer10s => simp [mseNonSettling] at he
      | sockOpen =>
          simpa [mseRunFrom, mseStep] using ih buf rest hpre
      | msgError v =>
          simp only [List.cons_append, mseRunFrom, mseStep]
          exact List.mem_cons_of_mem _ (ih buf rest hpre)
      | binaryChunk d =>
          simpa [mseRunFrom, mseStep] using ih (handleFMP4Data d buf) rest hpre

/-- C9 counterexample: the peer driver's 10-second timer only guards
WebSocket opening.  In the trace where the signaling socket opens early
and then nothing else happens before the timer fires, the connect attempt
emits no signal at all: no media-ready, no failure, and no timeout when
the window closes — the Selector is left waiting
(webrtcService.ts lines 100-123: `onopen` resolves the promise, so the
lines 118-122 timer finds `readyState === OPEN` and never rejects, and no
other timer guards the wait for the answer or the media track). -/
theorem connect_timeout_counterexample :
    wrtcRun [WrtcEvt.sockOpen, WrtcEvt.timer10s] = []
    ∧ wrtcRun
        [WrtcEvt.sockOpen, WrtcEvt.srvAnswer, WrtcEvt.timer10s,
          WrtcEvt.srvAnswer] = [] := by
  refine ⟨rfl, rfl⟩

/-- C9 amended: each driver's 10-second timer self-terminates exactly the
unsettled connect.  For the MSE driver the property holds as claimed: if
nothing within the window settles the connect (no codec-ready message, no
socket error or close), the timer produces the timeout failure.  For the
peer driver the guarantee is narrower: the timeout failure is produced
when the signaling socket neither opens nor errors within the window —
once the socket is open, the driver may wait beyond the window without
emitting anything (mseStreamService.ts lines 279-339,
webrtcService.ts lines 100-123). -/
theorem connect_timeout_guards (pre : List MseEvt) (rest : List MseEvt)
    (preW : List WrtcEvt) (restW : List WrtcEvt)
    (h : ∀ e ∈ pre, mseNonSettling e = true)
    (hW : ∀ e ∈ preW, wrtcNonSettling e = true) :
    DriverSignal.failure "WebSocket connection timeout"
        ∈ mseRun (pre ++ MseEvt.timer10s :: rest)
    ∧ DriverSignal.failure "WebSocket connection timeout"
        ∈ wrtcRun (preW ++ WrtcEvt.timer10s :: restW) := by
  constructor
  · exact mse_nonSettling_run pre mseBufInitial rest h
  · rw [wrtcRun, wrtc_nonSettling_keeps_unsettled preW restW hW]
    exact List.mem_append_right _ (List.mem_cons_self _ _)

/-- C9 amended witness: a silent window followed by the timer yields the
timeout failure on both drivers; binary data and server error strings in
the window do not settle the MSE connect. -/
theorem connect_timeout_guards_witness :
    DriverSignal.failure "WebSocket connection timeout"
        ∈ mseRun
          [MseEvt.sockOpen, MseEvt.binaryChunk [0, 0], MseEvt.timer10s]
    ∧ DriverSignal.failure "WebSocket connection timeout"
        ∈ wrtcRun [WrtcEvt.timer10s] :=
  connect_timeout_guards [MseEvt.sockOpen, MseEvt.binaryChunk [0, 0]] []
    [] [] (by decide) (by decide)

theorem trimBufferAux_succ (n : Nat) (buf : List (List Nat)) :
    trimBufferAux (n + 1) buf
      = if buf.length > maxBufferSize then trimBufferAux n buf.tail else buf :=
  rfl

theorem trimBufferAux_of_le (fuel : Nat) (buf : List (List Nat))
    (h : buf.length ≤ maxBufferSize) : trimBufferAux fuel buf = buf := by
  cases fuel with
  | zero => rfl
  | succ n => rw [trimBufferAux_succ, if_neg (by omega)]

theorem trimBuffer_of_le (buf : List (List Nat))
    (h : buf.length ≤ maxBufferSize) : trimBuffer buf = buf :=
  trimBufferAux_of_le buf.length buf h

theorem trimBuffer_one_over (buf : List (List Nat))
    (h : buf.length = maxBufferSize + 1) : trimBuffer buf = buf.tail := by
  have h1 : trimBuffer buf = trimBufferAux (maxBufferSize + 1) buf := by
    unfold trimBuffer
    rw [h]
  rw [h1, trimBufferAux_succ, if_pos (by omega)]
  exact trimBufferAux_of_le _ _ (by simp only [List.length_tail]; omega)

/-- C10 counterexample: `handleFMP4Data` requires `data.length > 8`, not
just the `ftyp` signature.  The 8-byte chunk whose bytes at offsets 4-7
spell `ftyp` is NOT stored as the init segment — it is pushed into the
media buffer (mseStreamService.ts lines 349-361). -/
theorem ftyp_edge_counterexample :
    ftypEdgeChunk.getD 4 0 = 0x66
    ∧ ftypEdgeChunk.getD 5 0 = 0x74
    ∧ ftypEdgeChunk.getD 6 0 = 0x79
    ∧ ftypEdgeChunk.getD 7 0 = 0x70
    ∧ (handleFMP4Data ftypEdgeChunk mseBufInitial).initSegment = none
    ∧ (handleFMP4Data ftypEdgeChunk mseBufInitial).mediaBuffer
        = [ftypEdgeChunk] := by
  refine ⟨rfl, rfl, rfl, rfl, by decide, by decide⟩

/-- C10 amended: after every received chunk the media buffer holds at most
50 media segments, the oldest dropped first; a chunk LONGER THAN 8 BYTES
whose bytes at offsets 4-7 spell `ftyp` is stored as the init segment and
never placed in the media buffer; and a newly connecting HTTP client is
served the init segment before any buffered media segment
(mseStreamService.ts lines 343-378 and 190-223). -/
theorem relay_buffer_bounded (d : List Nat) (s : MseBufState) :
    (isInitChunk d = true →
      handleFMP4Data d s = { s with initSegment := some d })
    ∧ (isInitChunk d = false → s.mediaBuffer.length < maxBufferSize →
      (handleFMP4Data d s).mediaBuffer = s.mediaBuffer ++ [d])
    ∧ (isInitChunk d = false → s.mediaBuffer.length = maxBufferSize →
      (handleFMP4Data d s).mediaBuffer = (s.mediaBuffer ++ [d]).tail)
    ∧ (s.mediaBuffer.length ≤ maxBufferSize →
      (handleFMP4Data d s).mediaBuffer.length ≤ maxBufferSize)
    ∧ (∀ i, s.initSegment = some i →
      serveStreamChunks s = i :: s.mediaBuffer) := by
  have hpush : (s.mediaBuffer ++ [d]).length = s.mediaBuffer.length + 1 := by
    simp
  refine ⟨fun hi => ?_, fun hi hlen => ?_, fun hi hlen => ?_, fun hlen => ?_,
    fun i hi => ?_⟩
  · simp [handleFMP4Data, hi]
  · have hle : (s.mediaBuffer ++ [d]).length ≤ maxBufferSize := by omega
    simp only [handleFMP4Data, hi, Bool.false_eq_true, if_false]
    rw [trimBuffer_of_le _ hle]
  · have heq : (s.mediaBuffer ++ [d]).length = maxBufferSize + 1 := by omega
    simp only [handleFMP4Data, hi, Bool.false_eq_true, if_false]
    rw [trimBuffer_one_over _ heq]
  · by_cases hi : isInitChunk d
    · simpa [handleFMP4Data, hi] using hlen
    · simp only [handleFMP4Data, hi, Bool.false_eq_true, if_false]
      rcases Nat.lt_or_ge s.mediaBuffer.length maxBufferSize with h1 | h1
      · have hle : (s.mediaBuffer ++ [d]).length ≤ maxBufferSize := by omega
        rw [trimBuffer_of_le _ hle]
        omega
      · have heq : (s.mediaBuffer ++ [d]).length = maxBufferSize + 1 := by
          omega
        rw [trimBuffer_one_over _ heq]
        simp only [List.length_tail]
        omega
  · simp [serveStreamChunks, hi]

/-- C10 amended witness: a real 9-byte init chunk is stored as init with
the media buffer untouched; pushing into a full 50-chunk buffer drops the
oldest chunk; a client connecting to a relay holding an init segment is
served the init first. -/
theorem relay_buffer_bounded_witness :
    handleFMP4Data [0, 0, 0, 24, 0x66, 0x74, 0x79, 0x70, 1]
        { initSegment := none, mediaBuffer := [[7]] }
      = { initSegment := some [0, 0, 0, 24, 0x66, 0x74, 0x79, 0x70, 1],
          mediaBuffer := [[7]] }
    ∧ (handleFMP4Data [9]
        { initSegment := none,
          mediaBuffer := List.replicate maxBufferSize [1] }).mediaBuffer
      = (List.replicate maxBufferSize [1] ++ [[9]]).tail
    ∧ serveStreamChunks { initSegment := some [3], mediaBuffer := [[4], [5]] }
      = [3] :: [[4], [5]] :=
  ⟨(relay_buffer_bounded [0, 0, 0, 24, 0x66, 0x74, 0x79, 0x70, 1]
      { initSegment := none, mediaBuffer := [[7]] }).1 (by decide),
    (relay_buffer_bounded [9]
      { initSegment := none,
        mediaBuffer := List.replicate maxBufferSize [1] }).2.2.1 (by decide)
      (by decide),
    (relay_buffer_bounded [0]
      { initSegment := some [3], mediaBuffer := [[4], [5]] }).2.2.2.2 [3] rfl⟩
